import Mathlib

/-!
Shallow embedding of the frame/record encoding subsystem of python-yubico
(`yubico/yubikey_neo_usb_hid.py` and `yubico/ykdef.py`), together with
theorems settling the specification claims about it.

Byte strings are modelled as `List Nat` (each element a byte value 0..255
in well-formed inputs); Python `struct.pack` range errors and the
explicit `YubiKeyNEO_USBHIDError` exceptions are modelled with `Except`.
-/

/-- Byte strings (Python `bytes`), one `Nat` per byte. -/
abbrev Bytes := List Nat

/-- The byte values of an ASCII string literal (used to write down the
constant tables of the source). -/
def strBytes (s : String) : Bytes := s.toList.map Char.toNat

/-- Python `bytes.ljust(n, pad)`: pad on the right up to length `n`
(no-op when already at least `n` long). -/
def ljust (l : Bytes) (n : Nat) (pad : Nat) : Bytes :=
  l ++ List.replicate (n - l.length) pad

/-- A `struct.pack` fixed-size `ns` field: truncate to `n` bytes or pad
with zero bytes on the right. -/
def packBytesField (l : Bytes) (n : Nat) : Bytes := ljust (l.take n) n 0

/-- Python `str.lower()` restricted to latin-1 code points: ASCII A-Z and
the latin-1 uppercase letters 0xC0-0xDE (except the multiplication sign
0xD7) move down by 32, everything else is unchanged. -/
def lowerLatin1 (b : Nat) : Nat :=
  if 65 ≤ b ∧ b ≤ 90 then b + 32
  else if 192 ≤ b ∧ b ≤ 222 ∧ b ≠ 215 then b + 32
  else b

-- Constants from yubikey_neo_usb_hid.py (commands from ykdef.h).
def SLOT_NDEF : Nat := 0x08
def ACC_CODE_SIZE : Nat := 6
def NDEF_DATA_SIZE : Nat := 54
def SLOT_DEVICE_CONFIG : Nat := 0x11
def MODE_OTP : Nat := 0x00

def NDEF_URI_TYPE : Int := 85
def NDEF_TEXT_TYPE : Int := 84

/-- The URI identifier table from nfcforum-ts-rtd-uri-1.0.pdf, in source
order (`uri_identifiers` in yubikey_neo_usb_hid.py). -/
def uri_identifiers : List (Nat × Bytes) := [
  (0x01, strBytes "http://www."),
  (0x02, strBytes "https://www."),
  (0x03, strBytes "http://"),
  (0x04, strBytes "https://"),
  (0x05, strBytes "tel:"),
  (0x06, strBytes "mailto:"),
  (0x07, strBytes "ftp://anonymous:anonymous@"),
  (0x08, strBytes "ftp://ftp."),
  (0x09, strBytes "ftps://"),
  (0x0a, strBytes "sftp://"),
  (0x0b, strBytes "smb://"),
  (0x0c, strBytes "nfs://"),
  (0x0d, strBytes "ftp://"),
  (0x0e, strBytes "dav://"),
  (0x0f, strBytes "news:"),
  (0x10, strBytes "telnet://"),
  (0x11, strBytes "imap:"),
  (0x12, strBytes "rtsp://"),
  (0x13, strBytes "urn:"),
  (0x14, strBytes "pop:"),
  (0x15, strBytes "sip:"),
  (0x16, strBytes "sips:"),
  (0x17, strBytes "tftp:"),
  (0x18, strBytes "btspp://"),
  (0x19, strBytes "btl2cap://"),
  (0x1a, strBytes "btgoep://"),
  (0x1b, strBytes "tcpobex://"),
  (0x1c, strBytes "irdaobex://"),
  (0x1d, strBytes "file://"),
  (0x1e, strBytes "urn:epc:id:"),
  (0x1f, strBytes "urn:epc:tag:"),
  (0x20, strBytes "urn:epc:pat:"),
  (0x21, strBytes "urn:epc:raw:"),
  (0x22, strBytes "urn:epc:"),
  (0x23, strBytes "urn:nfc:")
  ]

/-- The match test of `_encode_ndef_uri_type`:
`data[:len(pfx)].decode('latin-1').lower() == pfx`. -/
def uriStartsWith (data : Bytes) (pfx : Bytes) : Bool :=
  (data.take pfx.length).map lowerLatin1 == pfx

/-- The `for (code, prefix) in uri_identifiers` loop of
`_encode_ndef_uri_type`: `t` starts at 0; the first matching entry sets
`t` to its code, strips the matched bytes and breaks. Returns the final
`(t, data)` pair. -/
def encodeUriLoop (data : Bytes) : List (Nat × Bytes) → Nat × Bytes
  | [] => (0, data)
  | (code, pfx) :: rest =>
      if uriStartsWith data pfx then (code, data.drop pfx.length)
      else encodeUriLoop data rest

/-- `YubiKeyNEO_NDEF._encode_ndef_uri_type`: run the loop over
`uri_identifiers`, then prepend the one-byte identifier code. -/
def encode_ndef_uri_type (data : Bytes) : Bytes :=
  let r := encodeUriLoop data uri_identifiers
  r.1 :: r.2

/-- Errors raised by the encoders: `YubiKeyNEO_USBHIDError` with its
message, and `struct.error` from `struct.pack` on out-of-range values. -/
inductive NeoError
  | usbhid (msg : String)
  | structError
deriving DecidableEq

deriving instance DecidableEq for Except

/-- The mutable state of a `YubiKeyNEO_NDEF` object (class attributes
together with the instance attributes set by `__init__`). -/
structure YubiKeyNEO_NDEF where
  ndef_type : Int
  ndef_str : Bytes
  access_code : Bytes
  ndef_text_lang : Bytes
  ndef_text_enc : String
deriving DecidableEq

/-- `YubiKeyNEO_NDEF.__init__(data, access_code=None)` on top of the
class-attribute defaults. -/
def mkNDEF (data : Bytes) (access_code : Option Bytes) : YubiKeyNEO_NDEF :=
  { ndef_type := NDEF_URI_TYPE
    ndef_str := data
    access_code := access_code.getD (List.replicate ACC_CODE_SIZE 0)
    ndef_text_lang := strBytes "en"
    ndef_text_enc := "UTF-8" }

/-- `YubiKeyNEO_NDEF.text(encoding, language)`. -/
def YubiKeyNEO_NDEF.text (n : YubiKeyNEO_NDEF) (encoding : String)
    (language : Bytes) : YubiKeyNEO_NDEF :=
  { n with ndef_type := NDEF_TEXT_TYPE
           ndef_text_lang := language
           ndef_text_enc := encoding }

/-- `YubiKeyNEO_NDEF.type(url, text, other)`: the three tuple-equality
tests of the source, in order; any other combination raises. -/
def YubiKeyNEO_NDEF.type (n : YubiKeyNEO_NDEF) (url text : Bool)
    (other : Option Int) : Except NeoError YubiKeyNEO_NDEF :=
  match url, text, other with
  | true, false, none => .ok { n with ndef_type := NDEF_URI_TYPE }
  | false, true, none => .ok { n with ndef_type := NDEF_TEXT_TYPE }
  | false, false, some k => .ok { n with ndef_type := k }
  | _, _, _ => .error (.usbhid "Bad or conflicting NDEF type specified")

/-- `YubiKeyNEO_NDEF._encode_ndef_text_params(data)`. Note the source
computes `status = status & 0b10000000` in the UTF16 branch. -/
def YubiKeyNEO_NDEF.encode_ndef_text_params (n : YubiKeyNEO_NDEF)
    (data : Bytes) : Bytes :=
  let status := n.ndef_text_lang.length
  let status := if n.ndef_text_enc == "UTF16" then status &&& 0b10000000
                else status
  status :: (n.ndef_text_lang ++ data)

/-- The `data` local of `YubiKeyNEO_NDEF.to_string` after the
type-specific transform. -/
def YubiKeyNEO_NDEF.transformed (n : YubiKeyNEO_NDEF) : Bytes :=
  if n.ndef_type == NDEF_URI_TYPE then encode_ndef_uri_type n.ndef_str
  else if n.ndef_type == NDEF_TEXT_TYPE then n.encode_ndef_text_params n.ndef_str
  else n.ndef_str

/-- `YubiKeyNEO_NDEF.to_string()`: length check, then
`struct.pack('< B B 54s 6s', len(data), ndef_type, data.ljust(54, b'\x00'),
access_code)`; the `B` field for `ndef_type` raises `struct.error`
outside 0..255 (the commented-out CRC is not appended). -/
def YubiKeyNEO_NDEF.to_string (n : YubiKeyNEO_NDEF) : Except NeoError Bytes :=
  let data := n.transformed
  if NDEF_DATA_SIZE < data.length then .error (.usbhid "NDEF payload too long")
  else if n.ndef_type < 0 ∨ 255 < n.ndef_type then .error .structError
  else .ok ([data.length, n.ndef_type.toNat]
      ++ ljust data NDEF_DATA_SIZE 0
      ++ packBytesField n.access_code ACC_CODE_SIZE)

/-- A `YubiKeyFrame`. Modelled from the spec: the class
`yubikey_frame.YubiKeyFrame` is not under src/; per the spec a Frame is
"the command/slot code plus a payload right-padded with zero bytes to a
fixed 64-byte transport unit". -/
structure YubiKeyFrame where
  command : Nat
  payload : Bytes
deriving DecidableEq

/-- `YubiKeyNEO_NDEF.to_frame(slot)`. -/
def YubiKeyNEO_NDEF.to_frame (n : YubiKeyNEO_NDEF) (slot : Nat) :
    Except NeoError YubiKeyFrame :=
  match n.to_string with
  | .error e => .error e
  | .ok data => .ok { command := slot, payload := ljust data 64 0 }

/-- `to_frame` called with its default argument `slot=_SLOT_NDEF`. -/
def YubiKeyNEO_NDEF.to_frame_default (n : YubiKeyNEO_NDEF) :
    Except NeoError YubiKeyFrame :=
  n.to_frame SLOT_NDEF

/-- The state of a `YubiKeyNEO_DEVICE_CONFIG` object. -/
structure YubiKeyNEO_DEVICE_CONFIG where
  mode : Nat
  cr_timeout : Nat
  auto_eject_time : Nat
deriving DecidableEq

/-- `YubiKeyNEO_DEVICE_CONFIG.__init__(mode=_MODE_OTP)` on top of the
class-attribute defaults. -/
def mkDeviceConfig (mode : Nat) : YubiKeyNEO_DEVICE_CONFIG :=
  { mode := mode, cr_timeout := 0, auto_eject_time := 0 }

/-- `YubiKeyNEO_DEVICE_CONFIG.cr_timeout(timeout)`. -/
def YubiKeyNEO_DEVICE_CONFIG.set_cr_timeout (c : YubiKeyNEO_DEVICE_CONFIG)
    (timeout : Nat) : YubiKeyNEO_DEVICE_CONFIG :=
  { c with cr_timeout := timeout }

/-- `YubiKeyNEO_DEVICE_CONFIG.auto_eject_time(auto_eject_time)`. -/
def YubiKeyNEO_DEVICE_CONFIG.set_auto_eject_time (c : YubiKeyNEO_DEVICE_CONFIG)
    (t : Nat) : YubiKeyNEO_DEVICE_CONFIG :=
  { c with auto_eject_time := t }

/-- `YubiKeyNEO_DEVICE_CONFIG.to_string()`:
`struct.pack('<BBH', mode, cr_timeout, auto_eject_time)`; `B` fields
raise `struct.error` outside 0..255 and `H` outside 0..65535; the `H`
field is little-endian (the commented-out CRC is not appended). -/
def YubiKeyNEO_DEVICE_CONFIG.to_string (c : YubiKeyNEO_DEVICE_CONFIG) :
    Except NeoError Bytes :=
  if 255 < c.mode ∨ 255 < c.cr_timeout ∨ 65535 < c.auto_eject_time then
    .error .structError
  else
    .ok [c.mode, c.cr_timeout, c.auto_eject_time % 256, c.auto_eject_time / 256]

/-- `YubiKeyNEO_DEVICE_CONFIG.to_frame(slot)`. -/
def YubiKeyNEO_DEVICE_CONFIG.to_frame (c : YubiKeyNEO_DEVICE_CONFIG)
    (slot : Nat) : Except NeoError YubiKeyFrame :=
  match c.to_string with
  | .error e => .error e
  | .ok data => .ok { command := slot, payload := ljust data 64 0 }

/-- `to_frame` called with its default argument `slot=_SLOT_DEVICE_CONFIG`. -/
def YubiKeyNEO_DEVICE_CONFIG.to_frame_default (c : YubiKeyNEO_DEVICE_CONFIG) :
    Except NeoError YubiKeyFrame :=
  c.to_frame SLOT_DEVICE_CONFIG

/-- Firmware version triples (major, minor, patch), compared like Python
tuples. -/
abbrev Version := Nat × Nat × Nat

/-- Python tuple `<` on version triples (lexicographic). -/
def versionLt (a b : Version) : Bool :=
  a.1 < b.1 || (a.1 == b.1 && (a.2.1 < b.2.1 ||
    (a.2.1 == b.2.1 && a.2.2 < b.2.2)))

/-- Python tuple `>=` on version triples. -/
def versionGe (a b : Version) : Bool := !(versionLt a b)

/-- `YubiKeyNEO_USBHIDCapabilities.have_challenge_response(mode)`:
`self.version >= (3, 0, 0)` (the `mode` argument is ignored). -/
def have_challenge_response (version : Version) (_mode : Nat) : Bool :=
  versionGe version (3, 0, 0)

/-- `YubiKeyNEO_USBHIDCapabilities.have_configuration_slot(slot)`. -/
def have_configuration_slot (version : Version) (slot : Nat) : Bool :=
  if versionLt version (3, 0, 0) then slot == 1
  else slot == 1 || slot == 2

/-- `YubiKeyNEO_USBHIDCapabilities.have_nfc_ndef()`. -/
def have_nfc_ndef : Bool := true

/-- `YubiKeyNEO_USBHIDCapabilities.have_device_config()`:
`self.version >= (3, 0, 0)`. -/
def have_device_config (version : Version) : Bool :=
  versionGe version (3, 0, 0)

/-- The spec-side reading of "version at least (3,0,0)" as a
lexicographic order on triples. -/
def VersionAtLeast300 (v : Version) : Prop :=
  3 < v.1 ∨ (3 = v.1 ∧ (0 < v.2.1 ∨ (0 = v.2.1 ∧ 0 ≤ v.2.2)))

-- USB mode constants (class MODE of ykdef.py).
def MODE.OTP : Nat := 0x00
def MODE.CCID : Nat := 0x01
def MODE.OTP_CCID : Nat := 0x02
def MODE.U2F : Nat := 0x03
def MODE.OTP_U2F : Nat := 0x04
def MODE.U2F_CCID : Nat := 0x05
def MODE.OTP_U2F_CCID : Nat := 0x06

/-- The seven enumerated USB modes, in source order. -/
def MODE.ALL_MODES : List Nat :=
  [ MODE.OTP, MODE.CCID, MODE.OTP_CCID, MODE.U2F, MODE.OTP_U2F,
   MODE.U2F_CCID, MODE.OTP_U2F_CCID]

/-- `MODE.all(otp, ccid, u2f)`: start from the full set and
`difference_update` away the listed modes for each requested
capability. -/
def MODE.all (otp ccid u2f : Bool) : List Nat :=
  let modes := MODE.ALL_MODES
  let modes := if otp then
      modes.filter (fun m => !([ MODE.CCID, MODE.U2F, MODE.U2F_CCID].contains m))
    else modes
  let modes := if ccid then
      modes.filter (fun m => !([ MODE.OTP, MODE.U2F, MODE.OTP_U2F].contains m))
    else modes
  let modes := if u2f then
      modes.filter (fun m => !([ MODE.OTP, MODE.CCID, MODE.OTP_CCID].contains m))
    else modes
  modes

/-- Which modes support OTP keyboard emulation (from the mode names and
source comments). -/
def MODE.has_otp (m : Nat) : Bool :=
  [ MODE.OTP, MODE.OTP_CCID, MODE.OTP_U2F, MODE.OTP_U2F_CCID].contains m

/-- Which modes support CCID (from the mode names and source comments). -/
def MODE.has_ccid (m : Nat) : Bool :=
  [ MODE.CCID, MODE.OTP_CCID, MODE.U2F_CCID, MODE.OTP_U2F_CCID].contains m

/-- Which modes support U2F (from the mode names and source comments). -/
def MODE.has_u2f (m : Nat) : Bool :=
  [ MODE.U2F, MODE.OTP_U2F, MODE.U2F_CCID, MODE.OTP_U2F_CCID].contains m

-- USB product ID constants (class PID of ykdef.py).
def PID.YUBIKEY : Nat := 0x0010
def PID.NEO_OTP : Nat := 0x0110
def PID.NEO_OTP_CCID : Nat := 0x0111
def PID.NEO_CCID : Nat := 0x0112
def PID.NEO_U2F : Nat := 0x0113
def PID.NEO_OTP_U2F : Nat := 0x0114
def PID.NEO_U2F_CCID : Nat := 0x0115
def PID.NEO_OTP_U2F_CCID : Nat := 0x0116
def PID.NEO_SKY : Nat := 0x0120
def PID.YK4_OTP : Nat := 0x0401
def PID.YK4_U2F : Nat := 0x0402
def PID.YK4_OTP_U2F : Nat := 0x0403
def PID.YK4_CCID : Nat := 0x0404
def PID.YK4_OTP_CCID : Nat := 0x0405
def PID.YK4_U2F_CCID : Nat := 0x0406
def PID.YK4_OTP_U2F_CCID : Nat := 0x0407
def PID.PLUS_U2F_OTP : Nat := 0x0410

/-- The seventeen known product IDs, in source order. -/
def PID.ALL_PIDS : List Nat :=
  [ PID.YUBIKEY, PID.NEO_OTP, PID.NEO_OTP_CCID, PID.NEO_CCID, PID.NEO_U2F,
    PID.NEO_OTP_U2F, PID.NEO_U2F_CCID, PID.NEO_OTP_U2F_CCID, PID.NEO_SKY,
    PID.YK4_OTP, PID.YK4_U2F, PID.YK4_OTP_U2F, PID.YK4_CCID,
    PID.YK4_OTP_CCID, PID.YK4_U2F_CCID, PID.YK4_OTP_U2F_CCID,
    PID.PLUS_U2F_OTP]

/-- `PID.all(otp, ccid, u2f)`: start from the full set and
`difference_update` away the listed product IDs for each requested
capability. -/
def PID.all (otp ccid u2f : Bool) : List Nat :=
  let pids := PID.ALL_PIDS
  let pids := if otp then
      pids.filter (fun p => !([ PID.NEO_CCID, PID.NEO_U2F, PID.NEO_U2F_CCID,
        PID.NEO_SKY, PID.YK4_U2F, PID.YK4_CCID, PID.YK4_U2F_CCID].contains p))
    else pids
  let pids := if ccid then
      pids.filter (fun p => !([ PID.YUBIKEY, PID.NEO_OTP, PID.NEO_U2F,
        PID.NEO_OTP_U2F, PID.NEO_SKY, PID.YK4_OTP, PID.YK4_U2F,
        PID.YK4_OTP_U2F, PID.PLUS_U2F_OTP].contains p))
    else pids
  let pids := if u2f then
      pids.filter (fun p => !([ PID.YUBIKEY, PID.NEO_OTP, PID.NEO_OTP_CCID,
        PID.NEO_CCID, PID.YK4_OTP, PID.YK4_CCID, PID.YK4_OTP_CCID].contains p))
    else pids
  pids

/-- Which product IDs have the OTP interface active (from the variant
names and source comments). -/
def PID.has_otp (p : Nat) : Bool :=
  [ PID.YUBIKEY, PID.NEO_OTP, PID.NEO_OTP_CCID, PID.NEO_OTP_U2F,
    PID.NEO_OTP_U2F_CCID, PID.YK4_OTP, PID.YK4_OTP_U2F, PID.YK4_OTP_CCID,
    PID.YK4_OTP_U2F_CCID, PID.PLUS_U2F_OTP].contains p

/-- Which product IDs have the CCID interface active (from the variant
names and source comments). -/
def PID.has_ccid (p : Nat) : Bool :=
  [ PID.NEO_OTP_CCID, PID.NEO_CCID, PID.NEO_U2F_CCID, PID.NEO_OTP_U2F_CCID,
    PID.YK4_CCID, PID.YK4_OTP_CCID, PID.YK4_U2F_CCID,
    PID.YK4_OTP_U2F_CCID].contains p

/-- Which product IDs have the U2F interface active (from the variant
names and source comments; the Security Key `NEO_SKY` is U2F-only). -/
def PID.has_u2f (p : Nat) : Bool :=
  [ PID.NEO_U2F, PID.NEO_OTP_U2F, PID.NEO_U2F_CCID, PID.NEO_OTP_U2F_CCID,
    PID.NEO_SKY, PID.YK4_U2F, PID.YK4_OTP_U2F, PID.YK4_U2F_CCID,
    PID.YK4_OTP_U2F_CCID, PID.PLUS_U2F_OTP].contains p

/-- The loop of `_encode_ndef_uri_type` returns the code and stripped
payload of the first matching table entry, and `(0, data)` when no entry
matches. -/
theorem encodeUriLoop_spec (data : Bytes) (tbl : List (Nat × Bytes)) :
    (∀ code pfx,
      tbl.find? (fun cp => uriStartsWith data cp.2) = some (code, pfx) →
      encodeUriLoop data tbl = (code, data.drop pfx.length)) ∧
    (tbl.find? (fun cp => uriStartsWith data cp.2) = none →
      encodeUriLoop data tbl = (0, data)) := by
  induction tbl with
  | nil =>
    refine ⟨?_, fun _ => rfl⟩
    intro code pfx h
    simp [List.find?] at h
  | cons hd rest ih =>
    obtain ⟨c, p⟩ := hd
    by_cases hm : uriStartsWith data p = true
    · refine ⟨?_, ?_⟩
      · intro code pfx h
        rw [List.find?_cons_of_pos _ (by simpa using hm)] at h
        simp only [Option.some.injEq, Prod.mk.injEq] at h
        obtain ⟨h1, h2⟩ := h
        subst h1; subst h2
        simp [encodeUriLoop, hm]
      · intro h
        rw [List.find?_cons_of_pos _ (by simpa using hm)] at h
        simp at h
    · have hstep : encodeUriLoop data ((c, p) :: rest) = encodeUriLoop data rest := by
        simp [encodeUriLoop, hm]
      refine ⟨?_, ?_⟩
      · intro code pfx h
        rw [List.find?_cons_of_neg _ (by simpa using hm)] at h
        rw [hstep]
        exact ih.1 code pfx h
      · intro h
        rw [List.find?_cons_of_neg _ (by simpa using hm)] at h
        rw [hstep]
        exact ih.2 h

/-- Claim C1: if `(code, P)` is the first entry of `uri_identifiers` (in
table order) whose prefix case-insensitively matches the start of the
payload, then `_encode_ndef_uri_type` yields that one-byte code followed
by the payload with the first `len(P)` bytes stripped (the remainder
unchanged, so case-preserved); if no entry matches, it yields byte 0x00
followed by the unmodified payload. -/
theorem C1_uri_prefix_compression (data : Bytes) :
    (∀ code pfx,
      uri_identifiers.find? (fun cp => uriStartsWith data cp.2) = some (code, pfx) →
      encode_ndef_uri_type data = code :: data.drop pfx.length) ∧
    (uri_identifiers.find? (fun cp => uriStartsWith data cp.2) = none →
      encode_ndef_uri_type data = 0 :: data) := by
  obtain ⟨h1, h2⟩ := encodeUriLoop_spec data uri_identifiers
  refine ⟨?_, ?_⟩
  · intro code pfx h
    simp [encode_ndef_uri_type, h1 code pfx h]
  · intro h
    simp [encode_ndef_uri_type, h2 h]

/-- Witness for C1: the entry `(0x02, "https://www.")` is the first match
for `"HTTPS://WWW.Example.com/P"` (case-insensitively), and `"xyz:a"`
matches no entry. -/
theorem C1_uri_prefix_compression_witness :
    encode_ndef_uri_type (strBytes "HTTPS://WWW.Example.com/P")
        = 0x02 :: (strBytes "HTTPS://WWW.Example.com/P").drop
            (strBytes "https://www.").length
      ∧ encode_ndef_uri_type (strBytes "xyz:a") = 0 :: strBytes "xyz:a" :=
  ⟨(C1_uri_prefix_compression (strBytes "HTTPS://WWW.Example.com/P")).1
      0x02 (strBytes "https://www.") (by decide),
   (C1_uri_prefix_compression (strBytes "xyz:a")).2 (by decide)⟩

/-- Claim C2 (code bug): the source computes `status = status & 0b10000000`
in the UTF16 branch (an AND instead of an OR), so for language "en" and
encoding UTF16 the status byte is `2 & 0x80 = 0`: its high bit is clear
and the language length is lost, while the claim (and the NFC forum
document the source cites) requires `0x80 | 2 = 0x82`. The UTF-8 branch
behaves as claimed (status byte = language length, then the raw language
bytes, then the payload). -/
theorem C2_text_utf16_status_bug :
    ((mkNDEF (strBytes "hi") none).text "UTF-8" (strBytes "en")).transformed
        = 2 :: (strBytes "en" ++ strBytes "hi")
      ∧ ((mkNDEF (strBytes "hi") none).text "UTF16" (strBytes "en")).transformed
        = 0 :: (strBytes "en" ++ strBytes "hi")
      ∧ Nat.testBit 0 7 = false ∧ (2 &&& 0b10000000) = 0 := by
  refine ⟨by decide, by decide, by decide, by decide⟩

/-- Common layout of a successful `YubiKeyNEO_NDEF.to_string`. -/
theorem to_string_ok_layout (n : YubiKeyNEO_NDEF)
    (hdata : n.transformed.length ≤ 54)
    (hlo : 0 ≤ n.ndef_type) (hhi : n.ndef_type ≤ 255) :
    n.to_string = .ok ([n.transformed.length, n.ndef_type.toNat]
        ++ ljust n.transformed 54 0 ++ packBytesField n.access_code 6) := by
  simp only [YubiKeyNEO_NDEF.to_string]
  rw [if_neg (by simp only [NDEF_DATA_SIZE]; omega), if_neg (by omega)]
  simp [NDEF_DATA_SIZE, ACC_CODE_SIZE]

/-- An NDEF record whose raw numeric type 300 does not fit the one-byte
`B` field of `struct.pack` (obtainable from the source API via
`YubiKeyNEO_NDEF(b'x').type(other=300)`). -/
def ndefRawType300 : YubiKeyNEO_NDEF :=
  { ndef_type := 300
    ndef_str := strBytes "x"
    access_code := List.replicate 6 0
    ndef_text_lang := strBytes "en"
    ndef_text_enc := "UTF-8" }

/-- Counterexample to C3 as stated: `ndefRawType300` has post-transform
data of 1 byte (≤ 54) and a 6-byte access code, yet `to_string` does not
return 62 bytes: `struct.pack('B', 300)` raises `struct.error`. -/
theorem C3_counterexample_raw_type_300 :
    ((mkNDEF (strBytes "x") none).type false false (some 300)
        = .ok ndefRawType300)
      ∧ ndefRawType300.transformed.length ≤ 54
      ∧ ndefRawType300.access_code.length = 6
      ∧ ndefRawType300.to_string = .error .structError := by
  refine ⟨by decide, by decide, by decide, by decide⟩

/-- Claim C3 (amended: the type code must also fit its one-byte field):
for every NFC tag record whose post-transform data is at most 54 bytes,
whose access code is 6 bytes and whose type code is in 0..255,
`to_string` returns exactly 62 bytes: a length byte equal to the
pre-padding data length, the type byte, the data zero-padded to 54
bytes, then the 6-byte access code — no checksum or trailer. -/
theorem C3_record_layout (n : YubiKeyNEO_NDEF)
    (hdata : n.transformed.length ≤ 54)
    (hacc : n.access_code.length = 6)
    (hlo : 0 ≤ n.ndef_type) (hhi : n.ndef_type ≤ 255) :
    n.to_string = .ok ([n.transformed.length, n.ndef_type.toNat]
        ++ ljust n.transformed 54 0 ++ n.access_code)
      ∧ ([n.transformed.length, n.ndef_type.toNat]
        ++ ljust n.transformed 54 0 ++ n.access_code).length = 62 := by
  have hpack : packBytesField n.access_code 6 = n.access_code := by
    have htake : n.access_code.take 6 = n.access_code :=
      List.take_of_length_le (by omega)
    simp [packBytesField, ljust, htake, hacc]
  refine ⟨?_, ?_⟩
  · rw [to_string_ok_layout n hdata hlo hhi, hpack]
  · simp [ljust, hacc]
    omega

/-- Witness for C3: a concrete URI record within all the bounds. -/
theorem C3_record_layout_witness :
    (mkNDEF (strBytes "tel:12345") none).to_string
      = .ok ([(mkNDEF (strBytes "tel:12345") none).transformed.length,
              (mkNDEF (strBytes "tel:12345") none).ndef_type.toNat]
          ++ ljust (mkNDEF (strBytes "tel:12345") none).transformed 54 0
          ++ (mkNDEF (strBytes "tel:12345") none).access_code) :=
  (C3_record_layout (mkNDEF (strBytes "tel:12345") none)
    (by decide) (by decide) (by decide) (by decide)).1

/-- Claim C4: `to_string` fails with the "NDEF payload too long" error
(`PayloadTooLarge`) exactly when the post-transform data exceeds 54
bytes; in particular a URI payload of 53 raw bytes (54 after the
compression byte is prepended) serializes successfully, and one of 54
raw bytes (55 post-compression) fails. -/
theorem C4_payload_too_large_iff (n : YubiKeyNEO_NDEF) :
    (n.to_string = .error (.usbhid "NDEF payload too long")
        ↔ 54 < n.transformed.length)
      ∧ (mkNDEF (List.replicate 53 97) none).to_string
          = .ok ([54, 85] ++ (0 :: List.replicate 53 97) ++ List.replicate 6 0)
      ∧ (mkNDEF (List.replicate 54 97) none).to_string
          = .error (.usbhid "NDEF payload too long") := by
  refine ⟨⟨?_, ?_⟩, by decide, by decide⟩
  · intro h
    by_contra hlen
    simp only [YubiKeyNEO_NDEF.to_string] at h
    rw [if_neg (by simp only [NDEF_DATA_SIZE]; omega)] at h
    split at h <;> simp_all
  · intro h
    simp only [YubiKeyNEO_NDEF.to_string]
    rw [if_pos (by simp only [NDEF_DATA_SIZE]; omega)]

/-- Claim C5: `type(url, text, other)` succeeds exactly when one selector
is given alone (url alone → URI type 0x55, text alone → Text type 0x54,
an integer `other` alone → that numeric type); every other combination,
including none set or url and text both set, raises the "Bad or
conflicting NDEF type specified" error (`InvalidConfiguration`), and the
record is only updated in the success branches. -/
theorem C5_type_selection (n : YubiKeyNEO_NDEF) (url text : Bool)
    (other : Option Int) :
    (url = true → text = false → other = none →
      n.type url text other = .ok { n with ndef_type := NDEF_URI_TYPE })
    ∧ (url = false → text = true → other = none →
      n.type url text other = .ok { n with ndef_type := NDEF_TEXT_TYPE })
    ∧ (∀ k : Int, url = false → text = false → other = some k →
      n.type url text other = .ok { n with ndef_type := k })
    ∧ (¬ ((url = true ∧ text = false ∧ other = none)
          ∨ (url = false ∧ text = true ∧ other = none)
          ∨ (url = false ∧ text = false ∧ other.isSome = true)) →
      n.type url text other
        = .error (.usbhid "Bad or conflicting NDEF type specified")) := by
  cases url <;> cases text <;> cases other <;>
    simp [YubiKeyNEO_NDEF.type]

/-- Witness for C5: url and text both set is rejected. -/
theorem C5_type_selection_witness :
    (mkNDEF [] none).type true true none
      = .error (.usbhid "Bad or conflicting NDEF type specified") :=
  (C5_type_selection (mkNDEF [] none) true true none).2.2.2 (by decide)

/-- Claim C6: for mode, timeout and eject time within their 1-byte,
1-byte and 2-byte ranges, `YubiKeyNEO_DEVICE_CONFIG.to_string` returns
exactly 4 bytes: mode, timeout, then the eject time in little-endian
byte order. -/
theorem C6_device_config_serialize (c : YubiKeyNEO_DEVICE_CONFIG)
    (hm : c.mode ≤ 255) (ht : c.cr_timeout ≤ 255)
    (he : c.auto_eject_time ≤ 65535) :
    c.to_string = .ok [c.mode, c.cr_timeout,
        c.auto_eject_time % 256, c.auto_eject_time / 256]
      ∧ [c.mode, c.cr_timeout, c.auto_eject_time % 256,
        c.auto_eject_time / 256].length = 4 := by
  refine ⟨?_, rfl⟩
  simp only [YubiKeyNEO_DEVICE_CONFIG.to_string]
  rw [if_neg (by omega)]

/-- Witness for C6: mode=0x02, timeout=10, eject=300 gives 02 0A 2C 01. -/
theorem C6_device_config_serialize_witness :
    (((mkDeviceConfig 0x02).set_cr_timeout 10).set_auto_eject_time 300).to_string
      = .ok [0x02, 0x0a, 0x2c, 0x01] :=
  (C6_device_config_serialize
    (((mkDeviceConfig 0x02).set_cr_timeout 10).set_auto_eject_time 300)
    (by decide) (by decide) (by decide)).1

/-- Python tuple `>=` against (3,0,0) agrees with the lexicographic
"version at least 3.0.0". -/
theorem versionGe_300_iff (v : Version) :
    versionGe v (3, 0, 0) = true ↔ VersionAtLeast300 v := by
  obtain ⟨a, b, c⟩ := v
  simp [versionGe, versionLt, VersionAtLeast300]
  omega

/-- Claim C7: challenge-response is available iff the version is at
least (3,0,0); slot 1 is always usable and slot 2 iff at least (3,0,0);
NFC tag programming is always available; the device-mode record is
writable iff at least (3,0,0); with the four concrete anchor points of
the spec. -/
theorem C7_capability_gate :
    (∀ (v : Version) (mode : Nat),
        have_challenge_response v mode = true ↔ VersionAtLeast300 v)
      ∧ (∀ v : Version, have_configuration_slot v 1 = true)
      ∧ (∀ v : Version, have_configuration_slot v 2 = true ↔ VersionAtLeast300 v)
      ∧ have_nfc_ndef = true
      ∧ (∀ v : Version, have_device_config v = true ↔ VersionAtLeast300 v)
      ∧ have_device_config (2, 1, 9) = false
      ∧ have_device_config (3, 0, 0) = true
      ∧ have_configuration_slot (2, 4, 3) 2 = false
      ∧ have_configuration_slot (3, 1, 0) 2 = true := by
  have hslot2 : ∀ v : Version,
      have_configuration_slot v 2 = versionGe v (3, 0, 0) := by
    intro v
    by_cases h : versionLt v (3, 0, 0) = true
    · simp [have_configuration_slot, versionGe, h]
    · rw [Bool.not_eq_true] at h
      simp [have_configuration_slot, versionGe, h]
  refine ⟨fun v _ => versionGe_300_iff v, ?_, ?_, rfl, versionGe_300_iff,
    by decide, by decide, by decide, by decide⟩
  · intro v
    by_cases h : versionLt v (3, 0, 0) = true
    · simp [have_configuration_slot, h]
    · rw [Bool.not_eq_true] at h
      simp [have_configuration_slot, h]
  · intro v
    rw [hslot2 v]
    exact versionGe_300_iff v

/-- Claim C8: for every combination of the three boolean filters, the
USB-mode filter returns exactly the modes that support every requested
capability, and the product-ID filter does the same over the seventeen
known product IDs. -/
theorem C8_capability_filtering (otp ccid u2f : Bool) :
    MODE.all otp ccid u2f = MODE.ALL_MODES.filter
        (fun m => (!otp || MODE.has_otp m) && (!ccid || MODE.has_ccid m)
          && (!u2f || MODE.has_u2f m))
      ∧ PID.all otp ccid u2f = PID.ALL_PIDS.filter
        (fun p => (!otp || PID.has_otp p) && (!ccid || PID.has_ccid p)
          && (!u2f || PID.has_u2f p)) := by
  cases otp <;> cases ccid <;> cases u2f <;> exact ⟨by decide, by decide⟩

/-- Claim C9: when serialization succeeds, `to_frame(slot)` yields a
frame whose command is the given slot and whose payload is the
serialized record zero-padded to 64 bytes; the NDEF default slot is
0x08 and the device-config default slot is 0x11. -/
theorem C9_to_frame (n : YubiKeyNEO_NDEF) (c : YubiKeyNEO_DEVICE_CONFIG)
    (slot : Nat) (s t : Bytes)
    (hn : n.to_string = .ok s) (hc : c.to_string = .ok t) :
    n.to_frame slot = .ok { command := slot, payload := ljust s 64 0 }
      ∧ n.to_frame_default = n.to_frame SLOT_NDEF
      ∧ SLOT_NDEF = 0x08
      ∧ c.to_frame slot = .ok { command := slot, payload := ljust t 64 0 }
      ∧ c.to_frame_default = c.to_frame SLOT_DEVICE_CONFIG
      ∧ SLOT_DEVICE_CONFIG = 0x11 := by
  refine ⟨?_, rfl, rfl, ?_, rfl, rfl⟩
  · simp [YubiKeyNEO_NDEF.to_frame, hn]
  · simp [YubiKeyNEO_DEVICE_CONFIG.to_frame, hc]

/-- Witness for C9: concrete NDEF and device-config records at slot 8. -/
theorem C9_to_frame_witness :
    (mkNDEF [] none).to_frame 8
        = .ok { command := 8,
                payload := ljust ([1, 85] ++ ljust [0] 54 0
                    ++ List.replicate 6 0) 64 0 }
      ∧ (mkDeviceConfig 0).to_frame 8
        = .ok { command := 8, payload := ljust [0, 0, 0, 0] 64 0 } := by
  have h := C9_to_frame (mkNDEF [] none) (mkDeviceConfig 0) 8
      ([1, 85] ++ ljust [0] 54 0 ++ List.replicate 6 0) [0, 0, 0, 0]
      (by decide) (by decide)
  exact ⟨h.1, h.2.2.2.1⟩

/-- Claim C10: a record constructed without any type-selection call has
the URI discriminant (type byte 0x55 = 'U') and an all-zero 6-byte
access code, and its serialization applies URI prefix compression to the
payload. -/
theorem C10_default_type_uri (data : Bytes) :
    (mkNDEF data none).ndef_type = 85
      ∧ (mkNDEF data none).access_code = List.replicate 6 0
      ∧ (mkNDEF data none).transformed = encode_ndef_uri_type data
      ∧ ((encode_ndef_uri_type data).length ≤ 54 →
        (mkNDEF data none).to_string
          = .ok ([(encode_ndef_uri_type data).length, 85]
              ++ ljust (encode_ndef_uri_type data) 54 0
              ++ List.replicate 6 0)) := by
  refine ⟨rfl, rfl, rfl, ?_⟩
  intro h
  have hlay := to_string_ok_layout (mkNDEF data none)
      (by simpa using h) (by norm_num [mkNDEF, NDEF_URI_TYPE])
      (by norm_num [mkNDEF, NDEF_URI_TYPE])
  simpa using hlay

/-- Witness for C10: the default record for "http://a" compresses with
code 0x03 and serializes with type byte 0x55. -/
theorem C10_default_type_uri_witness :
    (mkNDEF (strBytes "http://a") none).to_string
      = .ok ([(encode_ndef_uri_type (strBytes "http://a")).length, 85]
          ++ ljust (encode_ndef_uri_type (strBytes "http://a")) 54 0
          ++ List.replicate 6 0) :=
  (C10_default_type_uri (strBytes "http://a")).2.2.2 (by decide)
